import Mathlib

/-!
Verification development for the learning-platform quiz-generator service.

The definitions below are a shallow embedding of the Python sources:
  - `src/models/quiz.py` (Question, Quiz and their pydantic validators),
  - `src/models/requests.py` (QuizGenerationRequest, QuizOptions),
  - `src/services/ai_client.py` (the JSON extraction step of
    `AIClientService.generate_quiz_questions`),
  - `src/services/quiz_generator.py` (content resolution and the
    generation pipeline),
  - `src/services/database.py` (the persistence gateway),
  - `src/main.py` (HTTP status mapping of the FastAPI handlers).

Python machine details are modelled explicitly: `str.find`/`str.rfind`
become `pyFind`/`pyRFind` on `List Char`, exceptions become `Except`
values tagged with their Python exception class (`ValueError` vs other),
and external collaborators (the model API, the Mongo driver, the
content-processor HTTP call, `json.loads`) are parameters of the
functions that call them.
-/

set_option autoImplicit false

namespace QuizGen

/-- Enumeration QuestionType from src/models/quiz.py (values
"multiple_choice", "boolean", "open"). -/
inductive QuestionType where
  | multiple_choice
  | boolean
  | open_
  deriving DecidableEq, Repr

/-- Enumeration DifficultyLevel from src/models/quiz.py (values "easy",
"medium", "hard"). -/
inductive DifficultyLevel where
  | easy
  | medium
  | hard
  deriving DecidableEq, Repr

/-- Value of the `correct_answer` field as it reaches the pydantic
validator: the declared type is `Union[str, bool]`, so a value that
passed type validation is either a string or a boolean. -/
inductive AnswerValue where
  | str (s : String)
  | bool (b : Bool)
  deriving DecidableEq, Repr

/-- The `convert_answer_to_string` field validator of `Question`
(src/models/quiz.py lines 26-31): booleans become `str(v).lower()`
("true"/"false"), anything else becomes `str(v)`, which on the remaining
branch of `Union[str, bool]` is the identity on strings. -/
def convert_answer_to_string : AnswerValue → String
  | .bool b => if b then "true" else "false"
  | .str s => s

/-- Validated Question record (src/models/quiz.py lines 16-31). After
validation `correct_answer` is always a string. -/
structure Question where
  question : String
  type : QuestionType
  correct_answer : String
  options : Option (List String)
  explanation : String
  difficulty : DifficultyLevel
  topic : String
  concepts_tested : List String
  deriving DecidableEq, Repr

/-- Pydantic construction of a `Question`: the declared field constraints
are `question: min_length=10` and `explanation: min_length=20`; the
`correct_answer` validator then normalises the answer to a string. All
other fields carry no constraints. -/
def mkQuestion (question : String) (type : QuestionType) (correct_answer : AnswerValue)
    (options : Option (List String)) (explanation : String) (difficulty : DifficultyLevel)
    (topic : String) (concepts_tested : List String) : Except String Question :=
  if question.length < 10 then
    .error "question: String should have at least 10 characters"
  else if explanation.length < 20 then
    .error "explanation: String should have at least 20 characters"
  else
    .ok { question, type, correct_answer := convert_answer_to_string correct_answer,
          options, explanation, difficulty, topic, concepts_tested }

/-- JSON values as produced by `json.loads`: objects, arrays, strings,
numbers, booleans, null. Numbers are modelled as integers; no claim
inspects numeric payloads. -/
inductive Json where
  | null
  | bool (b : Bool)
  | num (n : Int)
  | str (s : String)
  | arr (elems : List Json)
  | obj (fields : List (String × Json))

/-- Generation options (src/models/requests.py lines 11-19): requested
question count (pydantic bounds [1,20]), difficulty proportions (floats
in the source, modelled as rationals), requested question types, target
language. Defaults as declared in the source. -/
structure QuizOptions where
  num_questions : Nat := 10
  difficulty_distribution : List (DifficultyLevel × Rat) :=
    [(.easy, 3/10), (.medium, 5/10), (.hard, 2/10)]
  question_types : List QuestionType := [.multiple_choice, .boolean]
  language : String := "it"

/-- Quiz record (src/models/quiz.py lines 33-39). `created_at` is the
construction-time timestamp, modelled as a natural number supplied by
the caller; `metadata` is the open key-value bag. -/
structure Quiz where
  book_id : String
  questions : List Question
  created_at : Nat
  ai_model : String
  generation_prompt : Option String
  metadata : List (String × Json)

/-- Pydantic construction of a `Quiz`: the `questions` field is declared
with `min_length=1, max_length=20`; violating either bound is a
construction-time `ValidationError`. -/
def mkQuiz (book_id : String) (questions : List Question) (created_at : Nat)
    (ai_model : String) (generation_prompt : Option String)
    (metadata : List (String × Json)) : Except String Quiz :=
  if questions.length < 1 then
    .error "questions: List should have at least 1 item"
  else if 20 < questions.length then
    .error "questions: List should have at most 20 items"
  else
    .ok { book_id, questions, created_at, ai_model, generation_prompt, metadata }

/-- Python `str.find(c)` on a list of characters: index of the first
occurrence, `none` when absent (Python returns -1). -/
def pyFind (c : Char) : List Char → Option Nat
  | [] => none
  | a :: as => if a = c then some 0 else (pyFind c as).map (· + 1)

/-- Python `str.rfind(c)`: index of the last occurrence, `none` when
absent, computed from `pyFind` on the reversed text. -/
def pyRFind (c : Char) (l : List Char) : Option Nat :=
  (pyFind c l.reverse).map (fun i => l.length - 1 - i)

/-- Python whitespace strip, as applied by `.strip()` to the model
response before extraction (src/services/ai_client.py line 94). -/
def pyStrip (l : List Char) : List Char :=
  ((l.dropWhile Char.isWhitespace).reverse.dropWhile Char.isWhitespace).reverse

/-- Classified extraction failures. The first four are the spec taxonomy
of section 7; `otherFailure` covers the KeyError/TypeError paths the code
can also take, which fall outside that taxonomy. -/
inductive ExtractFailure where
  | noStructuredDataFound
  | malformedStructuredData (msg : String)
  | missingQuestionsField
  | questionValidationFailed (msg : String)
  | otherFailure (msg : String)
  deriving DecidableEq, Repr

/-- Step 1 of extraction (src/services/ai_client.py lines 100-105):
`start_idx = text.find(chr(123))`, `end_idx = text.rfind(chr(125)) + 1`;
when either search fails raise ValueError "No JSON found in response",
otherwise take the slice `text[start_idx:end_idx]`. -/
def locateCandidate (text : List Char) : Except ExtractFailure (List Char) :=
  match pyFind '{' text, pyRFind '}' text with
  | some s, some l => .ok ((text.drop s).take (l + 1 - s))
  | none, _ => .error .noStructuredDataFound
  | some _, none => .error .noStructuredDataFound

/-- Failures of one `Question(...)` construction inside the extraction
loop, tagged with the Python exception class the code raises there. -/
inductive QFail where
  | fieldAccessError (msg : String)
  | enumError (msg : String)
  | validationError (msg : String)
  deriving DecidableEq, Repr

/-- Enum conversion `QuestionType(x)`: succeeds only on the three member
strings, otherwise Python raises ValueError. -/
def questionTypeOfJson : Json → Option QuestionType
  | .str "multiple_choice" => some .multiple_choice
  | .str "boolean" => some .boolean
  | .str "open" => some .open_
  | _ => none

/-- Enum conversion `DifficultyLevel(x)`. -/
def difficultyOfJson : Json → Option DifficultyLevel
  | .str "easy" => some .easy
  | .str "medium" => some .medium
  | .str "hard" => some .hard
  | _ => none

/-- Pydantic type check for `correct_answer : Union[str, bool]`. -/
def answerOfJson : Json → Option AnswerValue
  | .str s => some (.str s)
  | .bool b => some (.bool b)
  | _ => none

/-- Pydantic type check for a plain string field. -/
def strOfJson : Json → Option String
  | .str s => some s
  | _ => none

/-- Pydantic type check for `List[str]`. -/
def strListOfJson : Json → Option (List String)
  | .arr elems => elems.mapM strOfJson
  | _ => none

/-- Pydantic type check for `options : Optional[List[str]]`, fed from
`q_data.get("options")`: a missing key or JSON null becomes `None`. -/
def optionsOfJson : Option Json → Option (Option (List String))
  | none => some none
  | some .null => some none
  | some (.arr elems) => (elems.mapM strOfJson).map some
  | some _ => none

/-- One iteration of the extraction loop (src/services/ai_client.py lines
114-123): evaluate `q_data[...]` lookups and enum conversions in argument
order (KeyError on a missing key, ValueError on a bad enum value), then
run pydantic validation of `Question(...)`. -/
def questionOfJson (j : Json) : Except QFail Question :=
  match j with
  | .obj fields =>
    match fields.lookup "question" with
    | none => .error (.fieldAccessError "KeyError: question")
    | some qv =>
    match fields.lookup "type" with
    | none => .error (.fieldAccessError "KeyError: type")
    | some tv =>
    match questionTypeOfJson tv with
    | none => .error (.enumError "not a valid QuestionType")
    | some t =>
    match fields.lookup "correct_answer" with
    | none => .error (.fieldAccessError "KeyError: correct_answer")
    | some av =>
    match fields.lookup "explanation" with
    | none => .error (.fieldAccessError "KeyError: explanation")
    | some ev =>
    match fields.lookup "difficulty" with
    | none => .error (.fieldAccessError "KeyError: difficulty")
    | some dv =>
    match difficultyOfJson dv with
    | none => .error (.enumError "not a valid DifficultyLevel")
    | some d =>
    match fields.lookup "topic" with
    | none => .error (.fieldAccessError "KeyError: topic")
    | some pv =>
    match fields.lookup "concepts_tested" with
    | none => .error (.fieldAccessError "KeyError: concepts_tested")
    | some cv =>
    match strOfJson qv with
    | none => .error (.validationError "question: input should be a valid string")
    | some qs =>
    match answerOfJson av with
    | none => .error (.validationError "correct_answer: input should be str or bool")
    | some a =>
    match optionsOfJson (fields.lookup "options") with
    | none => .error (.validationError "options: input should be a list of strings or null")
    | some os =>
    match strOfJson ev with
    | none => .error (.validationError "explanation: input should be a valid string")
    | some es =>
    match strOfJson pv with
    | none => .error (.validationError "topic: input should be a valid string")
    | some ps =>
    match strListOfJson cv with
    | none => .error (.validationError "concepts_tested: input should be a list of strings")
    | some cs =>
      (mkQuestion qs t a os es d ps cs).mapError (fun m => .validationError m)
  | _ => .error (.fieldAccessError "TypeError: question element is not a JSON object")

/-- The extraction loop over `response_data["questions"]`
(src/services/ai_client.py lines 111-124): build one `Question` per
element in order; the first failing element aborts the whole batch. -/
def buildQuestions : List Json → Except QFail (List Question)
  | [] => .ok []
  | j :: rest =>
    match questionOfJson j with
    | .error f => .error f
    | .ok q =>
      match buildQuestions rest with
      | .error f => .error f
      | .ok qs => .ok (q :: qs)

/-- Classification of a per-question failure at the level of the whole
extraction: enum and pydantic failures are the spec's
QuestionValidationFailed; KeyError/TypeError paths fall outside the spec
taxonomy. -/
def qfailToExtract : QFail → ExtractFailure
  | .fieldAccessError m => .otherFailure m
  | .enumError m => .questionValidationFailed m
  | .validationError m => .questionValidationFailed m

/-- Character-list prefix test, used to model the Python substring
operator `in` on strings. -/
def isPrefixList : List Char → List Char → Bool
  | [], _ => true
  | _ :: _, [] => false
  | a :: as, b :: bs => a = b && isPrefixList as bs

/-- Python `needle in hay` for strings: some suffix of `hay` starts with
`needle`. -/
def containsSub (needle : List Char) : List Char → Bool
  | [] => isPrefixList needle []
  | c :: cs => isPrefixList needle (c :: cs) || containsSub needle cs

/-- Steps 2-4 of extraction, applied to the located candidate slice
(src/services/ai_client.py lines 106-127). `parse` stands for
`json.loads`; its error message is wrapped exactly as the code wraps
`json.JSONDecodeError`. Non-dict parse results follow the Python
semantics of `"questions" not in response_data` and of the subsequent
subscription. -/
def extractFromCandidate (parse : List Char → Except String Json)
    (candidate : List Char) : Except ExtractFailure (List Question) :=
  match parse candidate with
  | .error msg => .error (.malformedStructuredData msg)
  | .ok (.obj fields) =>
    match fields.lookup "questions" with
    | none => .error .missingQuestionsField
    | some (.arr js) => (buildQuestions js).mapError qfailToExtract
    | some _ => .error (.otherFailure "TypeError: questions value is not a JSON array of objects")
  | .ok (.arr elems) =>
    if elems.any (fun e => match e with | .str s => s = "questions" | _ => false) then
      .error (.otherFailure "TypeError: list indices must be integers")
    else .error .missingQuestionsField
  | .ok (.str s) =>
    if containsSub "questions".toList s.toList then
      .error (.otherFailure "TypeError: string indices must be integers")
    else .error .missingQuestionsField
  | .ok _ => .error (.otherFailure "TypeError: argument not iterable")

/-- The whole extraction step of `AIClientService.generate_quiz_questions`
(src/services/ai_client.py lines 98-127), applied to the (already
stripped) response text: locate the candidate between the first opening
and last closing brace, then parse and validate it. The `options`
argument is received (as in the source) but never read by extraction. -/
def extractQuestions (parse : List Char → Except String Json) (options : QuizOptions)
    (text : List Char) : Except ExtractFailure (List Question) :=
  match locateCandidate text with
  | .error e => .error e
  | .ok candidate => extractFromCandidate parse candidate

/-- Python exception classes that matter to the HTTP handlers: plain
`ValueError`, pydantic `ValidationError` (a subclass of `ValueError`),
and everything else (`KeyError`, `TypeError`, driver errors, ...). -/
inductive PyExc where
  | valueError (msg : String)
  | validationError (msg : String)
  | otherError (msg : String)
  deriving DecidableEq, Repr

/-- Whether `except ValueError` catches this exception; pydantic
ValidationError subclasses ValueError, so it is caught too. -/
def PyExc.isValueError : PyExc → Bool
  | .valueError _ => true
  | .validationError _ => true
  | .otherError _ => false

/-- Exception actually raised by the code for each extraction failure
(src/services/ai_client.py lines 103, 109, 114-123, 132): the first
three classifications are plain ValueError with the quoted messages, a
question validation failure is a pydantic ValidationError (or the plain
ValueError of the enum constructor), and the KeyError/TypeError paths
keep their own classes. -/
def extractFailureToPyExc : ExtractFailure → PyExc
  | .noStructuredDataFound => .valueError "No JSON found in response"
  | .malformedStructuredData m => .valueError ("Invalid JSON response from AI: " ++ m)
  | .missingQuestionsField => .valueError "No questions key in response"
  | .questionValidationFailed m => .validationError m
  | .otherFailure m => .otherError m

/-- Membership in the spec taxonomy of section 7 (the four extraction
failure classifications). -/
def ExtractFailure.isSpecClassified : ExtractFailure → Bool
  | .otherFailure _ => false
  | _ => true

/-- Validated generation request (src/models/requests.py lines 5-9).
`content` is a required field there (`Field(..., min_length=100)`). -/
structure QuizGenerationRequest where
  content : String
  book_id : String
  metadata : List (String × Json) := []
  options : QuizOptions := {}

/-- Raw request body before pydantic validation: every field may be
absent. -/
structure RawQuizRequest where
  content : Option String := none
  book_id : Option String := none
  metadata : Option (List (String × Json)) := none
  options : Option QuizOptions := none

/-- Pydantic validation of `QuizGenerationRequest` as declared in
src/models/requests.py: `content` is required with `min_length=100`,
`book_id` is required, `metadata` and `options` default when absent. -/
def validateQuizRequest (r : RawQuizRequest) : Except String QuizGenerationRequest :=
  match r.content with
  | none => .error "content: Field required"
  | some c =>
    if c.length < 100 then .error "content: String should have at least 100 characters"
    else
      match r.book_id with
      | none => .error "book_id: Field required"
      | some b =>
        .ok { content := c, book_id := b, metadata := r.metadata.getD [],
              options := r.options.getD {} }

/-- Generation response (src/models/requests.py lines 21-26); elapsed
time is kept as a natural number of hundredths of a second. -/
structure QuizGenerationResponse where
  quiz_id : String
  questions_count : Nat
  status : String := "success"
  generation_time_seconds : Nat
  ai_model_used : String
  deriving DecidableEq, Repr

/-- Outcome of one call to an external collaborator: a normal return or
a raised exception carrying `str(e)`. -/
inductive StoreOutcome (α : Type) where
  | ok (a : α)
  | exn (msg : String)

/-- Configured model name (src/config.py). -/
def defaultAiModel : String := "claude-3-5-haiku-20241022"

/-- Configured service name (src/config.py). -/
def serviceName : String := "quiz-generator"

/-- The content-processor fetch
(`QuizGeneratorService._fetch_document_content`,
src/services/quiz_generator.py lines 17-38): a transport failure or any
processing error is re-raised as ValueError; a missing or empty
`content` field raises ValueError "has no content". `fetchRemote` stands
for the HTTP GET plus JSON decoding, returning the optional `content`
field. -/
def fetchDocumentContent (fetchRemote : String → StoreOutcome (Option String))
    (document_id : String) : Except PyExc String :=
  match fetchRemote document_id with
  | .exn msg => .error (.valueError ("Failed to retrieve document content: " ++ msg))
  | .ok none => .error (.valueError ("Document " ++ document_id ++ " has no content"))
  | .ok (some content) =>
    if content = "" then .error (.valueError ("Document " ++ document_id ++ " has no content"))
    else .ok content

/-- Content resolution inside `QuizGeneratorService.generate_quiz`
(src/services/quiz_generator.py lines 46-54): use `request.content`
unless it is falsy (the empty string, since the field is a `str`),
otherwise fetch by `book_id`; then require at least 100 characters. -/
def resolveContent (fetchRemote : String → StoreOutcome (Option String))
    (content : String) (book_id : String) : Except PyExc String :=
  match (if content = "" then fetchDocumentContent fetchRemote book_id else .ok content) with
  | .error e => .error e
  | .ok c =>
    if c.length < 100 then .error (.valueError "Content must be at least 100 characters long")
    else .ok c

/-- The whole `QuizGeneratorService.generate_quiz` sequence
(src/services/quiz_generator.py lines 40-90): resolve content, call the
model (`modelComplete`, receiving the resolved content and the options
that parameterise the prompt), strip and extract, construct the Quiz,
insert it, and assemble the response. Every failure is re-raised
unchanged (the `except ... raise` chains in ai_client.py and
quiz_generator.py). -/
def generateQuizPipeline (fetchRemote : String → StoreOutcome (Option String))
    (parse : List Char → Except String Json)
    (modelComplete : String → QuizOptions → StoreOutcome String)
    (insert : Quiz → StoreOutcome String)
    (req : QuizGenerationRequest) (now elapsed : Nat) :
    Except PyExc QuizGenerationResponse :=
  match resolveContent fetchRemote req.content req.book_id with
  | .error e => .error e
  | .ok content =>
  match modelComplete content req.options with
  | .exn m => .error (.otherError m)
  | .ok raw =>
  match extractQuestions parse req.options (pyStrip raw.toList) with
  | .error f => .error (extractFailureToPyExc f)
  | .ok questions =>
  match mkQuiz req.book_id questions now defaultAiModel
      (some "Quiz generated from book content") req.metadata with
  | .error m => .error (.validationError m)
  | .ok quiz =>
  match insert quiz with
  | .exn m => .error (.otherError m)
  | .ok quiz_id =>
    .ok { quiz_id, questions_count := questions.length,
          generation_time_seconds := elapsed, ai_model_used := defaultAiModel }

/-- Status mapping of the POST /generate-quiz handler (src/main.py lines
45-56): 200 on success, 400 for ValueError (which pydantic
ValidationError subclasses), 500 for any other exception. -/
def httpGenerateQuizStatus (result : Except PyExc QuizGenerationResponse) : Nat :=
  match result with
  | .ok _ => 200
  | .error e => if e.isValueError then 400 else 500

/-- Validity of a string as a BSON ObjectId: `bson.ObjectId(s)` accepts
exactly 24 hexadecimal characters and raises InvalidId otherwise. -/
def isValidObjectId (s : String) : Bool :=
  s.length = 24 && s.toList.all (fun c =>
    c.isDigit || ('a' ≤ c && c ≤ 'f') || ('A' ≤ c && c ≤ 'F'))

/-- The gateway read (`DatabaseService.get_quiz`, src/services/database.py
lines 37-46): the try block covers both `ObjectId(quiz_id)` and
`find_one`; any exception is swallowed and `None` returned. `findOne`
stands for the driver call. Stored documents are modelled as JSON. -/
def dbGetQuiz (findOne : String → StoreOutcome (Option Json)) (quiz_id : String) :
    Option Json :=
  if isValidObjectId quiz_id then
    match findOne quiz_id with
    | .ok r => r
    | .exn _ => none
  else none

/-- The gateway delete (`DatabaseService.delete_quiz`,
src/services/database.py lines 65-72): any exception from
`ObjectId(quiz_id)` or `delete_one` is swallowed and `False` returned;
otherwise the result is `deleted_count > 0`. -/
def dbDeleteQuiz (deleteOne : String → StoreOutcome Bool) (quiz_id : String) : Bool :=
  if isValidObjectId quiz_id then
    match deleteOne quiz_id with
    | .ok b => b
    | .exn _ => false
  else false

/-- The service read (`QuizGeneratorService.get_quiz`,
src/services/quiz_generator.py lines 92-100): a missing document becomes
ValueError "... not found", re-raised unchanged. -/
def serviceGetQuiz (findOne : String → StoreOutcome (Option Json)) (quiz_id : String) :
    Except PyExc Json :=
  match dbGetQuiz findOne quiz_id with
  | some q => .ok q
  | none => .error (.valueError ("Quiz with ID " ++ quiz_id ++ " not found"))

/-- Status mapping of the GET /quizzes/{id} handler (src/main.py lines
58-68): 200 on success, 404 for ValueError, 500 otherwise. -/
def httpGetQuizStatus (findOne : String → StoreOutcome (Option Json))
    (quiz_id : String) : Nat :=
  match serviceGetQuiz findOne quiz_id with
  | .ok _ => 200
  | .error e => if e.isValueError then 404 else 500

/-- Status mapping of the DELETE /quizzes/{id} handler (src/main.py lines
83-94 with `QuizGeneratorService.delete_quiz`, which re-raises): 200 when
the gateway reports a deletion, 404 otherwise. -/
def httpDeleteQuizStatus (deleteOne : String → StoreOutcome Bool)
    (quiz_id : String) : Nat :=
  if dbDeleteQuiz deleteOne quiz_id then 200 else 404

/-- Body of the /health response (src/main.py lines 96-115). -/
structure HealthBody where
  status : String
  service : String
  version : String
  database : String
  error : Option String
  deriving DecidableEq, Repr

/-- The /health handler: ping the store; any exception yields an
"unhealthy" body carrying `str(e)`, still with HTTP status 200. -/
def healthCheck (ping : StoreOutcome Unit) : Nat × HealthBody :=
  match ping with
  | .ok _ => (200, { status := "healthy", service := serviceName, version := "1.0.0",
                     database := "connected", error := none })
  | .exn msg => (200, { status := "unhealthy", service := serviceName, version := "1.0.0",
                        database := "disconnected", error := some msg })

/-- Sample valid question element, used by concrete witnesses. -/
def sampleQuestionJson : Json :=
  .obj [("question", .str "0123456789"), ("type", .str "open"),
        ("correct_answer", .bool false),
        ("explanation", .str "01234567890123456789"),
        ("difficulty", .str "hard"), ("topic", .str "t"),
        ("concepts_tested", .arr [])]

/-- The Question that `questionOfJson` produces from
`sampleQuestionJson`. -/
def sampleQuestion : Question :=
  { question := "0123456789", type := .open_, correct_answer := "false",
    options := none, explanation := "01234567890123456789", difficulty := .hard,
    topic := "t", concepts_tested := [] }

/-- A 120-character content string used by concrete witnesses. -/
def longContent : String :=
  "aaaaaaaaaaaaaaaaaaaaaaaaaaaaaaaaaaaaaaaaaaaaaaaaaaaaaaaaaaaaaaaaaaaaaaaaaaaaaaaaaaaaaaaaaaaaaaaaaaaaaaaaaaaaaaaaaaaaaa"

/-! Helper lemmas about the brace search and the extraction stages. -/

theorem pyFind_eq_none_iff (c : Char) (l : List Char) : pyFind c l = none ↔ c ∉ l := by
  induction l with
  | nil => simp [pyFind]
  | cons a as ih =>
    simp only [pyFind, List.mem_cons]
    by_cases h : a = c
    · simp [h]
    · simp only [h, if_false, Option.map_eq_none', ih]
      constructor
      · intro hn hor
        rcases hor with hh | hh
        · exact h hh.symm
        · exact hn hh
      · intro hn hm
        exact hn (Or.inr hm)

theorem pyFind_append_cons (c : Char) (pre rest : List Char) (h : c ∉ pre) :
    pyFind c (pre ++ c :: rest) = some pre.length := by
  induction pre with
  | nil => simp [pyFind]
  | cons a as ih =>
    have ha : ¬(a = c) := fun hac => h (by simp [hac])
    have h2 : c ∉ as := fun hc => h (List.mem_cons_of_mem _ hc)
    simp [pyFind, ha, ih h2]

theorem pyRFind_eq_none_iff (c : Char) (l : List Char) : pyRFind c l = none ↔ c ∉ l := by
  simp [pyRFind, Option.map_eq_none', pyFind_eq_none_iff, List.mem_reverse]

theorem pyRFind_append_cons (c : Char) (front post : List Char) (h : c ∉ post) :
    pyRFind c (front ++ c :: post) = some front.length := by
  have hrev : (front ++ c :: post).reverse = post.reverse ++ c :: front.reverse := by
    simp [List.reverse_append]
  have hpost : c ∉ post.reverse := by simpa [List.mem_reverse] using h
  have h1 : pyFind c (front ++ c :: post).reverse = some post.length := by
    rw [hrev, pyFind_append_cons c post.reverse front.reverse hpost, List.length_reverse]
  have hlen : (front ++ c :: post).length = front.length + post.length + 1 := by
    simp; omega
  rw [pyRFind, h1, Option.map_some', hlen]
  congr 1
  omega

theorem locateCandidate_slice (pre mid post : List Char)
    (hpre : '{' ∉ pre) (hpost : '}' ∉ post) :
    locateCandidate (pre ++ '{' :: (mid ++ '}' :: post)) = .ok ('{' :: (mid ++ ['}'])) := by
  have h1 : pyFind '{' (pre ++ '{' :: (mid ++ '}' :: post)) = some pre.length :=
    pyFind_append_cons '{' pre (mid ++ '}' :: post) hpre
  have h2 : pyRFind '}' (pre ++ '{' :: (mid ++ '}' :: post)) = some (pre.length + (mid.length + 1)) := by
    have heq : (pre ++ '{' :: mid) ++ '}' :: post = pre ++ '{' :: (mid ++ '}' :: post) := by
      simp
    have hr := pyRFind_append_cons '}' (pre ++ '{' :: mid) post hpost
    rw [heq] at hr
    have hlen : (pre ++ '{' :: mid).length = pre.length + (mid.length + 1) := by
      simp only [List.length_append, List.length_cons]
    rw [hr, hlen]
  have harith : pre.length + (mid.length + 1) + 1 - pre.length = mid.length + 2 := by omega
  have hdrop : (pre ++ '{' :: (mid ++ '}' :: post)).drop pre.length = '{' :: (mid ++ '}' :: post) :=
    List.drop_left pre ('{' :: (mid ++ '}' :: post))
  have htake : ('{' :: (mid ++ '}' :: post)).take (mid.length + 2) = '{' :: (mid ++ ['}']) := by
    rw [List.take_succ_cons]
    congr 1
    rw [List.take_append_eq_append_take]
    have h3 : mid.take (mid.length + 1) = mid := List.take_of_length_le (by omega)
    have h4 : mid.length + 1 - mid.length = 1 := by omega
    rw [h3, h4]
    simp
  simp only [locateCandidate, h1, h2, harith, hdrop, htake]

theorem locateCandidate_error_classified (t : List Char) (e : ExtractFailure)
    (h : locateCandidate t = .error e) : e = .noStructuredDataFound := by
  unfold locateCandidate at h
  split at h <;> simp_all

theorem locateCandidate_error_iff (t : List Char) :
    locateCandidate t = .error .noStructuredDataFound ↔ ('{' ∉ t ∨ '}' ∉ t) := by
  cases hf : pyFind '{' t with
  | none =>
    simp only [locateCandidate, hf]
    constructor
    · intro _
      exact Or.inl ((pyFind_eq_none_iff _ _).mp hf)
    · intro _
      trivial
  | some s =>
    cases hr : pyRFind '}' t with
    | none =>
      simp only [locateCandidate, hf, hr]
      constructor
      · intro _
        exact Or.inr ((pyRFind_eq_none_iff _ _).mp hr)
      · intro _
        trivial
    | some l =>
      simp only [locateCandidate, hf, hr]
      constructor
      · intro h
        cases h
      · intro h
        rcases h with h | h
        · rw [(pyFind_eq_none_iff _ _).mpr h] at hf
          cases hf
        · rw [(pyRFind_eq_none_iff _ _).mpr h] at hr
          cases hr

theorem qfail_mapError_ne_noStructured (x : Except QFail (List Question)) :
    x.mapError qfailToExtract ≠ .error .noStructuredDataFound := by
  cases x with
  | error f => cases f <;> simp [Except.mapError, qfailToExtract]
  | ok qs => simp [Except.mapError]

theorem extractFromCandidate_ne_noStructured (parse : List Char → Except String Json)
    (candidate : List Char) :
    extractFromCandidate parse candidate ≠ .error .noStructuredDataFound := by
  unfold extractFromCandidate
  split
  · simp
  · split <;> simp [qfail_mapError_ne_noStructured]
  · split <;> simp
  · split <;> simp
  · simp

theorem extract_noStructured_iff (parse : List Char → Except String Json)
    (opts : QuizOptions) (t : List Char) :
    extractQuestions parse opts t = .error .noStructuredDataFound ↔ ('{' ∉ t ∨ '}' ∉ t) := by
  unfold extractQuestions
  cases h : locateCandidate t with
  | error e =>
    have he : e = .noStructuredDataFound := locateCandidate_error_classified t e h
    subst he
    simp only [true_iff]
    exact (locateCandidate_error_iff t).mp h
  | ok candidate =>
    simp only [extractFromCandidate_ne_noStructured parse candidate, false_iff]
    intro hcontra
    have := (locateCandidate_error_iff t).mpr hcontra
    rw [h] at this
    cases this

theorem buildQuestions_error_of_mem (js : List Json) (j : Json) (f : QFail)
    (hj : j ∈ js) (hf : questionOfJson j = .error f) :
    ∃ g : QFail, buildQuestions js = .error g := by
  induction js with
  | nil => cases hj
  | cons a rest ih =>
    rcases List.mem_cons.mp hj with rfl | hmem
    · exact ⟨f, by simp [buildQuestions, hf]⟩
    · cases hq : questionOfJson a with
      | error f2 => exact ⟨f2, by simp [buildQuestions, hq]⟩
      | ok q =>
        rcases ih hmem with ⟨g, hg⟩
        exact ⟨g, by simp [buildQuestions, hq, hg]⟩

theorem buildQuestions_ok_length (js : List Json) (qs : List Question)
    (h : buildQuestions js = .ok qs) : qs.length = js.length := by
  induction js generalizing qs with
  | nil =>
    unfold buildQuestions at h
    injection h with h2
    subst h2
    rfl
  | cons j rest ih =>
    unfold buildQuestions at h
    cases hq : questionOfJson j with
    | error f => rw [hq] at h; cases h
    | ok q =>
      rw [hq] at h
      cases hr : buildQuestions rest with
      | error f => rw [hr] at h; cases h
      | ok qs2 =>
        rw [hr] at h
        injection h with h2
        subst h2
        simp [ih qs2 hr]

theorem buildQuestions_ok_get (js : List Json) (qs : List Question)
    (h : buildQuestions js = .ok qs) (i : Nat) (hi : i < js.length) (hq : i < qs.length) :
    questionOfJson (js.get ⟨i, hi⟩) = .ok (qs.get ⟨i, hq⟩) := by
  induction js generalizing qs i with
  | nil => exact absurd hi (by simp)
  | cons j rest ih =>
    unfold buildQuestions at h
    cases hqj : questionOfJson j with
    | error f => rw [hqj] at h; cases h
    | ok q =>
      rw [hqj] at h
      cases hr : buildQuestions rest with
      | error f => rw [hr] at h; cases h
      | ok qs2 =>
        rw [hr] at h
        injection h with h2
        subst h2
        cases i with
        | zero => simpa using hqj
        | succ n =>
          simp only [List.get_cons_succ]
          exact ih qs2 hr n (by simpa using hi) (by simpa using hq)

/-- C1: the extractor locates the JSON candidate as the substring from
the first opening-brace character to the last closing-brace character
inclusive, with no brace balancing. On a text decomposed as
`pre ++ braceOpen :: mid ++ braceClose :: post` with no opening brace in
`pre` and no closing brace in `post` (so those two braces are the first
opening and the last closing one), the located candidate is exactly that
inclusive substring; and extraction fails with the NoStructuredDataFound
classification exactly when the text contains no opening brace or no
closing brace, whatever `json.loads` does. -/
theorem C1_extractor_brace_location
    (parse : List Char → Except String Json) (opts : QuizOptions)
    (text pre mid post : List Char)
    (hpre : '{' ∉ pre) (hpost : '}' ∉ post)
    (htext : text = pre ++ '{' :: (mid ++ '}' :: post)) :
    locateCandidate text = .ok ('{' :: (mid ++ ['}'])) ∧
    ∀ t : List Char,
      (extractQuestions parse opts t = .error .noStructuredDataFound ↔
        ('{' ∉ t ∨ '}' ∉ t)) := by
  subst htext
  exact ⟨locateCandidate_slice pre mid post hpre hpost,
         fun t => extract_noStructured_iff parse opts t⟩

/-- Witness for C1 at the concrete text "noise{ab}tail". -/
theorem C1_extractor_brace_location_witness :
    locateCandidate ("noise".toList ++ '{' :: ("ab".toList ++ '}' :: "tail".toList)) =
        .ok ('{' :: ("ab".toList ++ ['}'])) ∧
    ∀ t : List Char,
      (extractQuestions (fun _ => .error "unused") {} t = .error .noStructuredDataFound ↔
        ('{' ∉ t ∨ '}' ∉ t)) :=
  C1_extractor_brace_location (fun _ => .error "unused") {} _ "noise".toList "ab".toList
    "tail".toList (by decide) (by decide) rfl

/-- C2: extraction is all-or-nothing. If any element of the "questions"
array fails to construct a `Question`, the whole batch fails: the loop
returns an error and never the valid subset. -/
theorem C2_extraction_all_or_nothing (js : List Json) (j : Json) (f : QFail)
    (hj : j ∈ js) (hf : questionOfJson j = .error f) :
    (∃ g : QFail, buildQuestions js = .error g) ∧
    ∀ qs : List Question, buildQuestions js ≠ .ok qs := by
  rcases buildQuestions_error_of_mem js j f hj hf with ⟨g, hg⟩
  refine ⟨⟨g, hg⟩, ?_⟩
  intro qs hqs
  rw [hg] at hqs
  cases hqs

/-- Witness for C2: a one-element batch whose question text is shorter
than the 10-character minimum yields an error, not a list. -/
theorem C2_extraction_all_or_nothing_witness :
    (∃ g : QFail,
      buildQuestions [Json.obj [("question", Json.str "short"),
        ("type", Json.str "boolean"), ("correct_answer", Json.bool true),
        ("explanation", Json.str "a sufficiently long explanation text"),
        ("difficulty", Json.str "easy"), ("topic", Json.str "t"),
        ("concepts_tested", Json.arr [Json.str "c"])]] = .error g) ∧
    ∀ qs : List Question,
      buildQuestions [Json.obj [("question", Json.str "short"),
        ("type", Json.str "boolean"), ("correct_answer", Json.bool true),
        ("explanation", Json.str "a sufficiently long explanation text"),
        ("difficulty", Json.str "easy"), ("topic", Json.str "t"),
        ("concepts_tested", Json.arr [Json.str "c"])]] ≠ .ok qs :=
  C2_extraction_all_or_nothing _ _
    (.validationError "question: String should have at least 10 characters")
    (List.mem_cons_self _ _) rfl

/-- C5: a successfully constructed Question whose correct-answer input
was a boolean stores the lowercase string "true" or "false", never a
boolean value; a (non-boolean) string input is retained as given. -/
theorem C5_bool_answers_stringified (question : String) (type : QuestionType)
    (a : AnswerValue) (options : Option (List String)) (explanation : String)
    (difficulty : DifficultyLevel) (topic : String) (concepts : List String)
    (h : ∃ q : Question,
      mkQuestion question type a options explanation difficulty topic concepts = .ok q) :
    (∀ b : Bool, a = .bool b →
        (mkQuestion question type a options explanation difficulty topic concepts).map
          Question.correct_answer = .ok (if b then "true" else "false")) ∧
    (∀ s : String, a = .str s →
        (mkQuestion question type a options explanation difficulty topic concepts).map
          Question.correct_answer = .ok s) := by
  rcases h with ⟨q, hq⟩
  unfold mkQuestion at hq ⊢
  by_cases h1 : question.length < 10
  · rw [if_pos h1] at hq
    cases hq
  · by_cases h2 : explanation.length < 20
    · rw [if_neg h1, if_pos h2] at hq
      cases hq
    · constructor
      · intro b hb
        subst hb
        rw [if_neg h1, if_neg h2]
        simp [Except.map, convert_answer_to_string]
      · intro s hs
        subst hs
        rw [if_neg h1, if_neg h2]
        simp [Except.map, convert_answer_to_string]

/-- Witness for C5: a boolean-true answer is stored as the string
"true". -/
theorem C5_bool_answers_stringified_witness :
    (∀ b : Bool, AnswerValue.bool true = .bool b →
        (mkQuestion "What is two plus two?" .boolean (.bool true) none
          "Because basic arithmetic says the sum is four." .easy "arithmetic"
          ["addition"]).map Question.correct_answer = .ok (if b then "true" else "false")) ∧
    (∀ s : String, AnswerValue.bool true = .str s →
        (mkQuestion "What is two plus two?" .boolean (.bool true) none
          "Because basic arithmetic says the sum is four." .easy "arithmetic"
          ["addition"]).map Question.correct_answer = .ok s) :=
  C5_bool_answers_stringified "What is two plus two?" .boolean (.bool true) none
    "Because basic arithmetic says the sum is four." .easy "arithmetic" ["addition"]
    ⟨_, rfl⟩

/-- C6: Quiz construction succeeds exactly when the question count lies
in [1, 20]; a count of 0 or above 20 always fails, a count inside the
bounds always succeeds. -/
theorem C6_quiz_question_count_bounds (book_id : String) (questions : List Question)
    (created_at : Nat) (ai_model : String) (generation_prompt : Option String)
    (metadata : List (String × Json)) :
    (∃ q : Quiz,
        mkQuiz book_id questions created_at ai_model generation_prompt metadata = .ok q)
      ↔ (1 ≤ questions.length ∧ questions.length ≤ 20) := by
  unfold mkQuiz
  split_ifs with h1 h2
  · simp only [iff_iff_implies_and_implies]
    constructor
    · intro ⟨q, hq⟩
      cases hq
    · intro hb
      omega
  · simp only [iff_iff_implies_and_implies]
    constructor
    · intro ⟨q, hq⟩
      cases hq
    · intro hb
      omega
  · constructor
    · intro _
      omega
    · intro _
      exact ⟨_, rfl⟩

/-- C7: a successful extraction returns one Question per element of the
questions array, in order, with result length equal to the array length;
the result is independent of the GenerationOptions (in particular it is
never clamped or padded to the requested question count); and under the
pipeline hypotheses the full extractor returns exactly this list. -/
theorem C7_one_question_per_element (js : List Json) (qs : List Question)
    (h : buildQuestions js = .ok qs) :
    qs.length = js.length ∧
    (∀ (i : Nat) (hi : i < js.length) (hq : i < qs.length),
        questionOfJson (js.get ⟨i, hi⟩) = .ok (qs.get ⟨i, hq⟩)) ∧
    (∀ (parse : List Char → Except String Json) (o o2 : QuizOptions) (t : List Char),
        extractQuestions parse o t = extractQuestions parse o2 t) ∧
    (∀ (parse : List Char → Except String Json) (o : QuizOptions) (t c : List Char)
        (fields : List (String × Json)),
        locateCandidate t = .ok c → parse c = .ok (.obj fields) →
        fields.lookup "questions" = some (.arr js) →
        extractQuestions parse o t = .ok qs) := by
  refine ⟨buildQuestions_ok_length js qs h, buildQuestions_ok_get js qs h, ?_, ?_⟩
  · intro parse o o2 t
    rfl
  · intro parse o t c fields h1 h2 h3
    simp only [extractQuestions, h1, extractFromCandidate, h2, h3, h, Except.mapError]

/-- Witness for C7: a one-element questions array yields exactly one
Question. -/
theorem C7_one_question_per_element_witness :
    ([sampleQuestion] : List Question).length = ([sampleQuestionJson] : List Json).length ∧
    (∀ (i : Nat) (hi : i < ([sampleQuestionJson] : List Json).length)
        (hq : i < ([sampleQuestion] : List Question).length),
        questionOfJson (([sampleQuestionJson] : List Json).get ⟨i, hi⟩) =
          .ok (([sampleQuestion] : List Question).get ⟨i, hq⟩)) ∧
    (∀ (parse : List Char → Except String Json) (o o2 : QuizOptions) (t : List Char),
        extractQuestions parse o t = extractQuestions parse o2 t) ∧
    (∀ (parse : List Char → Except String Json) (o : QuizOptions) (t c : List Char)
        (fields : List (String × Json)),
        locateCandidate t = .ok c → parse c = .ok (.obj fields) →
        fields.lookup "questions" = some (.arr [sampleQuestionJson]) →
        extractQuestions parse o t = .ok [sampleQuestion]) :=
  C7_one_question_per_element [sampleQuestionJson] [sampleQuestion] rfl

/-- C3 (amended): every extraction failure in the spec taxonomy
(NoStructuredDataFound, MalformedStructuredData, MissingQuestionsField,
QuestionValidationFailed) is raised as a ValueError or its subclass
pydantic ValidationError, propagates unchanged through the orchestrator
to the HTTP boundary, and is surfaced by POST /generate-quiz as HTTP
status 400 rather than 500: the handler maps ValueError to 400 and only
non-ValueError exceptions to 500. -/
theorem C3_extraction_failures_surface_as_400
    (fetchRemote : String → StoreOutcome (Option String))
    (parse : List Char → Except String Json)
    (modelComplete : String → QuizOptions → StoreOutcome String)
    (insert : Quiz → StoreOutcome String)
    (req : QuizGenerationRequest) (now elapsed : Nat)
    (content raw : String) (fail : ExtractFailure)
    (hc : resolveContent fetchRemote req.content req.book_id = .ok content)
    (hm : modelComplete content req.options = .ok raw)
    (he : extractQuestions parse req.options (pyStrip raw.toList) = .error fail)
    (hclass : fail.isSpecClassified = true) :
    generateQuizPipeline fetchRemote parse modelComplete insert req now elapsed =
        .error (extractFailureToPyExc fail) ∧
    httpGenerateQuizStatus
        (generateQuizPipeline fetchRemote parse modelComplete insert req now elapsed) = 400 := by
  have hpipe : generateQuizPipeline fetchRemote parse modelComplete insert req now elapsed =
      .error (extractFailureToPyExc fail) := by
    simp only [generateQuizPipeline, hc, hm, he]
  refine ⟨hpipe, ?_⟩
  rw [hpipe]
  cases fail with
  | noStructuredDataFound =>
    simp [httpGenerateQuizStatus, extractFailureToPyExc, PyExc.isValueError]
  | malformedStructuredData m =>
    simp [httpGenerateQuizStatus, extractFailureToPyExc, PyExc.isValueError]
  | missingQuestionsField =>
    simp [httpGenerateQuizStatus, extractFailureToPyExc, PyExc.isValueError]
  | questionValidationFailed m =>
    simp [httpGenerateQuizStatus, extractFailureToPyExc, PyExc.isValueError]
  | otherFailure m =>
    simp [ExtractFailure.isSpecClassified] at hclass

/-- Witness for the amended C3 at a concrete request whose model response
contains no braces. -/
theorem C3_extraction_failures_surface_as_400_witness :
    generateQuizPipeline (fun _ => StoreOutcome.exn "unused")
        (fun _ => Except.error "unused")
        (fun _ _ => StoreOutcome.ok "no structured data")
        (fun _ => StoreOutcome.exn "unused")
        { content := longContent, book_id := "book-1" } 0 0 =
      .error (extractFailureToPyExc .noStructuredDataFound) ∧
    httpGenerateQuizStatus
        (generateQuizPipeline (fun _ => StoreOutcome.exn "unused")
          (fun _ => Except.error "unused")
          (fun _ _ => StoreOutcome.ok "no structured data")
          (fun _ => StoreOutcome.exn "unused")
          { content := longContent, book_id := "book-1" } 0 0) = 400 :=
  C3_extraction_failures_surface_as_400 (fun _ => StoreOutcome.exn "unused")
    (fun _ => Except.error "unused")
    (fun _ _ => StoreOutcome.ok "no structured data")
    (fun _ => StoreOutcome.exn "unused")
    { content := longContent, book_id := "book-1" } 0 0
    longContent "no structured data" .noStructuredDataFound rfl rfl rfl rfl

/-- Counterexample to C3 as stated: a NoStructuredDataFound extraction
failure reaches the POST /generate-quiz boundary with HTTP status 400,
not 500, because it is raised as a ValueError and the handler maps
ValueError to 400. -/
theorem C3_counterexample_extraction_failure_is_not_500 :
    extractQuestions (fun _ => Except.error "unused") {}
        (pyStrip ("no structured data".toList)) = .error .noStructuredDataFound ∧
    httpGenerateQuizStatus
        (generateQuizPipeline (fun _ => StoreOutcome.exn "unused")
          (fun _ => Except.error "unused")
          (fun _ _ => StoreOutcome.ok "no structured data")
          (fun _ => StoreOutcome.exn "unused")
          { content := longContent, book_id := "book-1" } 0 0) = 400 ∧
    httpGenerateQuizStatus
        (generateQuizPipeline (fun _ => StoreOutcome.exn "unused")
          (fun _ => Except.error "unused")
          (fun _ _ => StoreOutcome.ok "no structured data")
          (fun _ => StoreOutcome.exn "unused")
          { content := longContent, book_id := "book-1" } 0 0) ≠ 500 :=
  ⟨rfl, rfl, by decide⟩

/-- C4: evaluation of the request model at the failing input. The claim
(and spec section 4.2, and the test `test_request_without_content`) says
`content` is optional and resolved by an external fetch when absent, but
`QuizGenerationRequest` declares `content` as a required field, so a
request carrying only `book_id` is rejected by validation before the
orchestrator runs. The remaining conjuncts evaluate the orchestrator
itself and confirm its side of the claim: an empty content triggers the
external fetch, fetched content is returned when long enough, resolved
content under 100 characters fails, and caller-supplied content of at
least 100 characters is used verbatim. -/
theorem C4_content_required_despite_fetch_branch :
    validateQuizRequest { book_id := some "book-123" } = .error "content: Field required" ∧
    resolveContent (fun _ => StoreOutcome.ok (some longContent)) "" "book-123" =
      .ok longContent ∧
    resolveContent (fun _ => StoreOutcome.ok (some "tiny")) "" "book-123" =
      .error (.valueError "Content must be at least 100 characters long") ∧
    resolveContent (fun _ => StoreOutcome.exn "unused") longContent "book-123" =
      .ok longContent :=
  ⟨rfl, rfl, rfl, rfl⟩

/-- C8: a syntactically invalid quiz identifier makes `ObjectId(...)`
raise inside the gateway try-blocks, which return the not-found
sentinels: read-by-id gives None and delete-by-id gives False; neither
operation propagates an exception (both are total functions into
`Option`/`Bool`). -/
theorem C8_malformed_id_not_found (findOne : String → StoreOutcome (Option Json))
    (deleteOne : String → StoreOutcome Bool) (quiz_id : String)
    (h : isValidObjectId quiz_id = false) :
    dbGetQuiz findOne quiz_id = none ∧ dbDeleteQuiz deleteOne quiz_id = false := by
  constructor
  · simp [dbGetQuiz, h]
  · simp [dbDeleteQuiz, h]

/-- Witness for C8 at the malformed identifier "nonexistent-id", with a
store that would succeed if it were ever consulted. -/
theorem C8_malformed_id_not_found_witness :
    dbGetQuiz (fun _ => StoreOutcome.ok (some Json.null)) "nonexistent-id" = none ∧
    dbDeleteQuiz (fun _ => StoreOutcome.ok true) "nonexistent-id" = false :=
  C8_malformed_id_not_found _ _ "nonexistent-id" (by decide)

/-- C9: the health probe returns HTTP 200 in both outcomes; a ping that
raises any exception yields body status "unhealthy", database
"disconnected" and the exception message in the error field, while a
successful ping yields status "healthy" and database "connected". -/
theorem C9_health_probe_always_200 (msg : String) :
    healthCheck (.exn msg) =
      (200, { status := "unhealthy", service := serviceName, version := "1.0.0",
              database := "disconnected", error := some msg }) ∧
    healthCheck (.ok ()) =
      (200, { status := "healthy", service := serviceName, version := "1.0.0",
              database := "connected", error := none }) :=
  ⟨rfl, rfl⟩

/-- C10: the gateway's not-found sentinels absorb every store failure,
not only malformed identifiers: for any quiz identifier, if the
underlying find or delete call raises, read-by-id returns None and
delete-by-id returns False, so the HTTP boundary reports 404, never
500. -/
theorem C10_store_failures_become_not_found
    (findOne : String → StoreOutcome (Option Json))
    (deleteOne : String → StoreOutcome Bool) (quiz_id : String) (m1 m2 : String)
    (h1 : findOne quiz_id = .exn m1) (h2 : deleteOne quiz_id = .exn m2) :
    dbGetQuiz findOne quiz_id = none ∧ dbDeleteQuiz deleteOne quiz_id = false ∧
    httpGetQuizStatus findOne quiz_id = 404 ∧
    httpDeleteQuizStatus deleteOne quiz_id = 404 := by
  have hg : dbGetQuiz findOne quiz_id = none := by
    by_cases hv : isValidObjectId quiz_id
    · simp [dbGetQuiz, hv, h1]
    · simp [dbGetQuiz, hv]
  have hd : dbDeleteQuiz deleteOne quiz_id = false := by
    by_cases hv : isValidObjectId quiz_id
    · simp [dbDeleteQuiz, hv, h2]
    · simp [dbDeleteQuiz, hv]
  refine ⟨hg, hd, ?_, ?_⟩
  · simp [httpGetQuizStatus, serviceGetQuiz, hg, PyExc.isValueError]
  · simp [httpDeleteQuizStatus, hd]

/-- Witness for C10 at a well-formed ObjectId whose store calls raise. -/
theorem C10_store_failures_become_not_found_witness :
    dbGetQuiz (fun _ => StoreOutcome.exn "Database error") "507f1f77bcf86cd799439011" = none ∧
    dbDeleteQuiz (fun _ => StoreOutcome.exn "Database error") "507f1f77bcf86cd799439011" = false ∧
    httpGetQuizStatus (fun _ => StoreOutcome.exn "Database error")
        "507f1f77bcf86cd799439011" = 404 ∧
    httpDeleteQuizStatus (fun _ => StoreOutcome.exn "Database error")
        "507f1f77bcf86cd799439011" = 404 :=
  C10_store_failures_become_not_found _ _ "507f1f77bcf86cd799439011"
    "Database error" "Database error" rfl rfl

end QuizGen
